import Mathlib

/-!
Verification of the Hercules-Gym-App frontend client against its
natural-language specification.  The data model and the operations are
shallowly embedded from the TypeScript source: pure computations become
Lean functions, the stateful services (socket service, cart, attendance
screen) become explicit state-passing functions, and fallible flows
return `Option`.
-/

set_option maxRecDepth 4000

/-! ## Request timeouts (`ApiService`, src/unnamed/part_013)

`axios.create({ timeout: 15000, ... })` sets the default timeout for all
client requests; `ping` overrides it with `{ timeout: 12000 }` and
`sendMessage` with `{ timeout: 30000 }`.  All values in milliseconds. -/

/-- Default timeout configured in the `ApiService` constructor. -/
def defaultRequestTimeoutMs : Nat := 15000

/-- Timeout override passed by `ApiService.ping` for `GET /health`. -/
def pingTimeoutMs : Nat := 12000

/-- Timeout override passed by `ApiService.sendMessage` for `POST /messages`. -/
def sendMessageTimeoutMs : Nat := 30000

/-- Per-request timeout resolution: an override wins over the default. -/
def resolveTimeoutMs (override : Option Nat) : Nat :=
  override.getD defaultRequestTimeoutMs

/-! ## Login payload (`ApiService.login`, src/unnamed/part_013 lines 38-48) -/

/-- Payload of `POST /auth/login` as built by `ApiService.login`. -/
structure LoginPayload where
  identifier : String
  password : String
  email : Option String
  phone : Option String
deriving Repr, DecidableEq

/-- Whitespace trimming at both ends, the embedding of JS
`String.prototype.trim`. -/
def trimStr (s : String) : String :=
  String.mk
    (((s.data.dropWhile Char.isWhitespace).reverse.dropWhile Char.isWhitespace).reverse)

/-- ASCII lowercasing, the embedding of JS `String.prototype.toLowerCase`
on the ASCII strings involved here. -/
def toLowerStr (s : String) : String :=
  String.mk (s.data.map Char.toLower)

/-- Embedding of `ApiService.login`: trims the identifier, then routes it
to the `email` field (lowercased) when it contains an `@`, otherwise to
the `phone` field. -/
def ApiService.login (identifier password : String) : LoginPayload :=
  let trimmed := trimStr identifier
  if trimmed.contains '@' then
    { identifier := trimmed, password := password
      email := some (toLowerStr trimmed), phone := none }
  else
    { identifier := trimmed, password := password
      email := none, phone := some trimmed }

/-! ## Approvals failure handling (src/unnamed/part_003, `confirmApprove` /
`confirmReject` catch blocks) -/

/-- Tests whether `sub` occurs as a contiguous run at some position of `s`. -/
def containsSubstrList (sub s : List Char) : Bool :=
  match s with
  | [] => sub.isEmpty
  | _ :: rest => sub.isPrefixOf s || containsSubstrList sub rest

/-- Substring containment, the embedding of JS `String.prototype.includes`. -/
def containsSubstr (s sub : String) : Bool :=
  containsSubstrList sub.data s.data

/-- Outcome of the catch block on the approvals screen: which modal text is
shown, whether it is styled as an error, and whether the pending list was
re-fetched (`loadRequests`). -/
structure ApprovalFeedback where
  title : String
  message : String
  isErrorFeedback : Bool
  refetched : Bool
deriving Repr, DecidableEq

/-- The `isAlreadyProcessed` test in both catch blocks:
`detailText.toLowerCase().includes('already') ||
 detailText.toLowerCase().includes('not found')`. -/
def isAlreadyProcessed (detailText : String) : Bool :=
  containsSubstr (toLowerStr detailText) "already" ||
    containsSubstr (toLowerStr detailText) "not found"

/-- Catch block of `confirmApprove`.  `detail` is
`error?.response?.data?.detail` when it is a string. -/
def confirmApproveOnError (detail : Option String) : ApprovalFeedback :=
  let detailText := match detail with
    | some s => s
    | none => "Failed to approve. Please try again."
  if isAlreadyProcessed detailText then
    { title := "Synced"
      message := "Request was already processed. The list is now up to date."
      isErrorFeedback := false, refetched := true }
  else
    { title := "Action Failed", message := detailText
      isErrorFeedback := true, refetched := false }

/-- Catch block of `confirmReject`; identical handling, only the fallback
text for a non-string detail differs. -/
def confirmRejectOnError (detail : Option String) : ApprovalFeedback :=
  let detailText := match detail with
    | some s => s
    | none => "Failed to reject. Please try again."
  if isAlreadyProcessed detailText then
    { title := "Synced"
      message := "Request was already processed. The list is now up to date."
      isErrorFeedback := false, refetched := true }
  else
    { title := "Action Failed", message := detailText
      isErrorFeedback := true, refetched := false }

/-! ## Registration (`handleRegister`, src/frontend/app/(auth)/login.tsx)
and profile editing (`handleSave`, src/unnamed/part_009) -/

/-- Roles selectable on the registration screen. -/
inductive Role where
  | admin
  | trainer
  | member
deriving Repr, DecidableEq

/-- The `CenterType` union, one of the three gym centers of `GYM_CENTERS`
(src/unnamed/part_013 line 4). -/
inductive Center where
  | Ranaghat
  | Chakdah
  | Madanpur
deriving Repr, DecidableEq

/-- Embedding of `GYM_CENTERS = ['Ranaghat', 'Chakdah', 'Madanpur']`. -/
def GYM_CENTERS : List Center :=
  [Center.Ranaghat, Center.Chakdah, Center.Madanpur]

/-- Embedding of `formatIndianPhoneDigits = (text) => text.replace(/\D/g, '').slice(0, 10)`:
keep only the decimal digits, then keep at most the first ten. -/
def formatIndianPhoneDigits (text : String) : String :=
  String.mk ((text.data.filter Char.isDigit).take 10)

/-- The registration form state (`formData` of `RegisterScreen`); `center`
is typed `CenterType`, so it always holds one of the three centers. -/
structure RegisterForm where
  full_name : String
  email : String
  phone : String
  password : String
  confirmPassword : String
  role : Role
  center : Center
deriving Repr, DecidableEq

/-- Payload passed to `register(...)` by `handleRegister`; `center` is
`undefined` (here `none`) when omitted. -/
structure RegisterPayload where
  full_name : String
  email : String
  phone : String
  password : String
  role : Role
  center : Option Center
deriving Repr, DecidableEq

/-- Embedding of `handleRegister`: the validation guards in source order,
then the payload that is submitted.  `none` means an alert is shown and no
request is sent.  The source's further guard
`(role === 'trainer' || role === 'member') && !center` can never fire
because `center` is a non-empty `CenterType` literal, and is therefore not
represented. -/
def handleRegister (f : RegisterForm) : Option RegisterPayload :=
  if f.full_name = "" || f.email = "" || f.phone = "" || f.password = "" then
    none
  else if (formatIndianPhoneDigits f.phone).length ≠ 10 then
    none
  else if f.password ≠ f.confirmPassword then
    none
  else if f.password.length < 6 then
    none
  else
    some { full_name := f.full_name
           email := trimStr (toLowerStr f.email)
           phone := "+91" ++ formatIndianPhoneDigits f.phone
           password := f.password
           role := f.role
           center := if f.role ≠ Role.admin then some f.center else none }

/-- Embedding of `toIndianPhoneDigits = (value) =>
value.replace(/\D/g, '').replace(/^91/, '').slice(0, 10)` on the edit
profile screen: keep digits, drop one leading `91`, keep the first ten. -/
def toIndianPhoneDigits (value : String) : String :=
  let digits := value.data.filter Char.isDigit
  let stripped := match digits with
    | '9' :: '1' :: rest => rest
    | l => l
  String.mk (stripped.take 10)

/-- Payload of `api.updateProfile` sent by `handleSave`. -/
structure ProfileUpdatePayload where
  full_name : String
  phone : String
deriving Repr, DecidableEq

/-- Embedding of `handleSave` on the edit profile screen; its `phone`
argument is the screen state, which `onChangeText` keeps equal to
`toIndianPhoneDigits` of the typed text. -/
def handleSave (full_name phone : String) : Option ProfileUpdatePayload :=
  if trimStr full_name = "" then none
  else if phone.length ≠ 10 then none
  else some { full_name := full_name, phone := "+91" ++ phone }

/-- End-to-end edit-profile submission: the typed phone text goes through
`toIndianPhoneDigits` (the `onChangeText` handler) before `handleSave`. -/
def editProfileSubmit (full_name typedPhone : String) : Option ProfileUpdatePayload :=
  handleSave full_name (toIndianPhoneDigits typedPhone)

/-- Every `Center` value is one of the three `GYM_CENTERS`. -/
theorem center_mem_gym_centers (c : Center) : c ∈ GYM_CENTERS := by
  cases c <;> simp [GYM_CENTERS]


/-! ## Time normalization (`toSystemDate`, src/frontend/src/utils/time.ts) -/

/-- A JS `Date` value: `time` is its epoch-milliseconds timestamp, `none`
standing for an invalid date (`getTime()` is `NaN`). -/
structure JSDate where
  time : Option Int
deriving Repr, DecidableEq

/-- The possible arguments of `toSystemDate(value?: string | Date | null)`:
a `Date`, a string, or `null`/`undefined`. -/
inductive TimeValue where
  | date (d : JSDate)
  | str (s : String)
  | nullish
deriving Repr, DecidableEq

/-- The regex `HAS_TZ_SUFFIX = /(Z|[+-]\d{2}:?\d{2})$/i`: the string ends
in `Z` (either case) or in a sign, two digits, an optional colon and two
more digits. -/
def hasTzSuffix (s : String) : Bool :=
  match s.data.reverse with
  | 'Z' :: _ => true
  | 'z' :: _ => true
  | d4 :: d3 :: ':' :: d2 :: d1 :: sgn :: _ =>
      d4.isDigit && d3.isDigit && d2.isDigit && d1.isDigit &&
        (sgn = '+' || sgn = '-')
  | d4 :: d3 :: d2 :: d1 :: sgn :: _ =>
      d4.isDigit && d3.isDigit && d2.isDigit && d1.isDigit &&
        (sgn = '+' || sgn = '-')
  | _ => false

/-- Embedding of `toSystemDate`, parameterized by the platform clock `now`
and the platform timestamp parser `parse` (`new Date(string)`; `none`
models an unparseable string, i.e. an invalid date).  A `Date` argument is
returned as-is; a nullish or blank argument yields the current time; a
string is trimmed and, unless it already has a timezone suffix, `Z` is
appended before parsing; an unparseable string also falls back to the
current time. -/
def toSystemDate (parse : String -> Option Int) (now : Int) :
    TimeValue -> JSDate
  | TimeValue.date d => d
  | TimeValue.nullish => { time := some now }
  | TimeValue.str s =>
    if s = "" then { time := some now }
    else
      let trimmed := trimStr s
      if trimmed = "" then { time := some now }
      else
        let normalized := if hasTzSuffix trimmed then trimmed else trimmed ++ "Z"
        match parse normalized with
        | none => { time := some now }
        | some t => { time := some t }


/-! ## Attendance screen (src/frontend/app/(tabs)/attendance.tsx) -/

/-- An attendance record as delivered by `GET /attendance/today`. -/
structure AttendanceRecord where
  id : String
  user_id : String
  check_in_time : String
  check_out_time : Option String
  method : String
deriving Repr, DecidableEq

/-- The checked-in computation of `loadData`:
`today.find((record) => record.user_id === user?.id && !record.check_out_time)`
followed by `setIsCheckedIn(!!myCheckIn)`. -/
def isCheckedInFrom (today : List AttendanceRecord) (uid : String) : Bool :=
  (today.find? (fun r => r.user_id == uid && r.check_out_time.isNone)).isSome

/-- REST requests the attendance screen can issue. -/
inductive ApiRequest where
  | checkInReq (user_id : String) (method : String)
  | checkOutReq (user_id : String)
deriving Repr, DecidableEq

/-- The check-in/check-out button:
`onPress={isCheckedIn ? handleCheckOut : handleCheckIn}`, where
`handleCheckIn` calls `api.checkIn(user.id, 'self')` and
`handleCheckOut` calls `api.checkOut(user.id)`. -/
def attendanceButtonRequest (isCheckedIn : Bool) (uid : String) : ApiRequest :=
  if isCheckedIn then ApiRequest.checkOutReq uid
  else ApiRequest.checkInReq uid "self"

/-- State update `setIsCheckedIn(true)` after a successful check-in. -/
def afterCheckInSuccess (_isCheckedIn : Bool) : Bool := true

/-- State update `setIsCheckedIn(false)` after a successful check-out. -/
def afterCheckOutSuccess (_isCheckedIn : Bool) : Bool := false


/-! ## Socket service (src/frontend/src/services/socket.ts)

The `SocketService` singleton holds a nullable socket and a nullable
userId.  A socket is modelled by its connected flag, the userId captured
by the closure of its `connect` handler (which emits the `register`
event), and the list of event names with attached listeners. -/

/-- A socket.io client socket as far as `SocketService` observes it. -/
structure Sock where
  connected : Bool
  registerUid : String
  listeners : List String
deriving Repr, DecidableEq

/-- The mutable fields of the `SocketService` singleton. -/
structure SocketServiceState where
  socket : Option Sock
  userId : Option String
deriving Repr, DecidableEq

/-- An event emitted to the server: its name and its `user_id` payload
field. -/
structure SocketEmission where
  event : String
  payloadUserId : String
deriving Repr, DecidableEq

namespace SocketService

/-- Embedding of `connect(userId)`: a no-op when the current socket is
connected and the stored userId equals the argument; otherwise stores the
userId and replaces the socket with a fresh, not-yet-connected one whose
`connect` handler closure captured `userId`. -/
def connect (st : SocketServiceState) (userId : String) : SocketServiceState :=
  if (match st.socket with
      | some sk => sk.connected
      | none => false) && st.userId == some userId then
    st
  else
    { socket := some { connected := false, registerUid := userId, listeners := [] }
      userId := some userId }

/-- The socket transport reports a successful connection: the stored
socket (if any) becomes connected and its `connect` handler runs
`this.socket?.emit('register', \x7b user_id: userId \x7d)` with the captured
userId.  Returns the new state and the emissions. -/
def fireConnect (st : SocketServiceState) :
    SocketServiceState × List SocketEmission :=
  match st.socket with
  | some sk =>
      ({ socket := some { sk with connected := true }, userId := st.userId },
        [{ event := "register", payloadUserId := sk.registerUid }])
  | none => (st, [])

/-- Embedding of `disconnect()`: when a socket exists, close it and null
out both fields; otherwise do nothing. -/
def disconnect (st : SocketServiceState) : SocketServiceState :=
  match st.socket with
  | some _ => { socket := none, userId := none }
  | none => st

/-- Embedding of `onMessage(callback)`: attaches a listener for
`message_` ++ userId only when both socket and userId are present. -/
def onMessage (st : SocketServiceState) : SocketServiceState :=
  match st.socket, st.userId with
  | some sk, some uid =>
      { socket := some { sk with listeners := sk.listeners ++ ["message_" ++ uid] }
        userId := st.userId }
  | _, _ => st

/-- Embedding of `onAnnouncement(callback)`: attaches listeners for
`announcement` and `announcement_` ++ userId only when both socket and
userId are present. -/
def onAnnouncement (st : SocketServiceState) : SocketServiceState :=
  match st.socket, st.userId with
  | some sk, some uid =>
      { socket := some { sk with
          listeners := sk.listeners ++ ["announcement", "announcement_" ++ uid] }
        userId := st.userId }
  | _, _ => st

/-- The invariant relating a stored socket to the stored userId: the uid
captured by the socket's `connect` handler is the stored userId.  It holds
in the initial state (both `null`) and is preserved by every operation. -/
def UidInv (st : SocketServiceState) : Prop :=
  ∀ sk, st.socket = some sk → st.userId = some sk.registerUid

end SocketService

/-! ## Screen re-fetch behavior (focus effects and polling intervals)

Each screen component is summarized by whether it calls its REST loader
inside a `useFocusEffect`, the `setInterval` period of its polling effect
(if any), and whether that effect's cleanup calls `clearInterval`. -/

/-- Focus/polling summary of one screen component. -/
structure ScreenSync where
  fetchesRestData : Bool
  refetchOnFocus : Bool
  pollIntervalMs : Option Nat
  clearsIntervalOnUnmount : Bool
deriving Repr, DecidableEq

/-- Chat screen (src/frontend/app/chat/[id].tsx): `loadMessages` on focus
and every 6000 ms, cleanup clears the interval. -/
def chatScreenSync : ScreenSync :=
  { fetchesRestData := true, refetchOnFocus := true
    pollIntervalMs := some 6000, clearsIntervalOnUnmount := true }

/-- Conversations screen (src/frontend/app/(tabs)/messages.tsx):
`loadConversations` on focus and every 6000 ms. -/
def messagesScreenSync : ScreenSync :=
  { fetchesRestData := true, refetchOnFocus := true
    pollIntervalMs := some 6000, clearsIntervalOnUnmount := true }

/-- Approvals screen (src/unnamed/part_003): `loadRequests` on focus and
every 8000 ms. -/
def approvalsScreenSync : ScreenSync :=
  { fetchesRestData := true, refetchOnFocus := true
    pollIntervalMs := some 8000, clearsIntervalOnUnmount := true }

/-- Home screen (`HomeScreen`, src/frontend/app/(tabs)/index.tsx):
`loadData` on focus and every 10000 ms. -/
def homeScreenSync : ScreenSync :=
  { fetchesRestData := true, refetchOnFocus := true
    pollIntervalMs := some 10000, clearsIntervalOnUnmount := true }

/-- Attendance screen (src/frontend/app/(tabs)/attendance.tsx): fetches
today's attendance over REST but has no `useFocusEffect` and no
`setInterval` — it loads only on mount and on manual refresh. -/
def attendanceScreenSync : ScreenSync :=
  { fetchesRestData := true, refetchOnFocus := false
    pollIntervalMs := none, clearsIntervalOnUnmount := true }

/-- Merchandise screen (`MerchandiseScreen`,
src/frontend/app/(tabs)/index.tsx): fetches merchandise over REST but has
no focus effect and no polling interval. -/
def merchandiseScreenSync : ScreenSync :=
  { fetchesRestData := true, refetchOnFocus := false
    pollIntervalMs := none, clearsIntervalOnUnmount := true }

/-- The data-bearing screens of the app considered by the spec claim. -/
def appScreens : List ScreenSync :=
  [chatScreenSync, messagesScreenSync, approvalsScreenSync, homeScreenSync,
    attendanceScreenSync, merchandiseScreenSync]


/-! ## Merchandise cart (`MerchandiseScreen`,
src/frontend/app/(tabs)/index.tsx) -/

/-- The `MerchandiseItem` interface, restricted to the fields the cart
operations read; `stock` is the per-size stock dictionary, looked up with
a `|| 0` default. -/
structure MerchandiseItem where
  id : String
  stock : List (String × Nat)
deriving Repr, DecidableEq

/-- Dictionary access `item.stock[size] || 0`. -/
def stockOf (m : MerchandiseItem) (size : String) : Nat :=
  (m.stock.lookup size).getD 0

/-- The `CartItem` interface. -/
structure CartItem where
  merchandise : MerchandiseItem
  size : String
  quantity : Nat
deriving Repr, DecidableEq

/-- Update step of `addToCart` past its guards: the first entry matching
`findIndex((item) => item.merchandise.id === selectedItem.id && item.size
=== selectedSize)` gets `quantity += 1` if `quantity < stock` (otherwise
the cart is unchanged and a limit alert is shown); with no match a new
entry of quantity 1 is appended. -/
def addToCartGo (cart : List CartItem) (sel : MerchandiseItem)
    (size : String) (stock : Nat) : List CartItem :=
  match cart with
  | [] => [{ merchandise := sel, size := size, quantity := 1 }]
  | it :: rest =>
    if it.merchandise.id == sel.id && it.size == size then
      if it.quantity < stock then
        { it with quantity := it.quantity + 1 } :: rest
      else
        it :: rest
    else
      it :: addToCartGo rest sel size stock

/-- Embedding of `addToCart`: no-op (an alert) when no size is selected
(`!selectedSize`, the empty string) or when the selected size is out of
stock; otherwise the first-match update/append of `addToCartGo`. -/
def addToCart (cart : List CartItem) (sel : MerchandiseItem)
    (size : String) : List CartItem :=
  if size = "" then cart
  else if stockOf sel size = 0 then cart
  else addToCartGo cart sel size (stockOf sel size)

/-- Embedding of `updateQuantity(index, delta)`: with `newQty =
quantity + delta` and `stock = item.merchandise.stock[item.size] || 0`,
apply the change when `0 < newQty ≤ stock`, remove the entry (splice)
when `newQty ≤ 0`, otherwise leave the cart unchanged. -/
def updateQuantity (cart : List CartItem) (index : Nat) (delta : Int) :
    List CartItem :=
  match cart[index]? with
  | none => cart
  | some it =>
    if 0 < (it.quantity : Int) + delta ∧
        (it.quantity : Int) + delta ≤ (stockOf it.merchandise it.size : Int) then
      cart.set index { it with quantity := ((it.quantity : Int) + delta).toNat }
    else if (it.quantity : Int) + delta ≤ 0 then
      cart.eraseIdx index
    else
      cart

/-- The cart invariant of the claim: every entry's quantity lies between
1 and the stock known for its item and size. -/
def CartInv (cart : List CartItem) : Prop :=
  ∀ it ∈ cart, 1 ≤ it.quantity ∧ it.quantity ≤ stockOf it.merchandise it.size

/-! ## Theorems -/

/-- C1 counterexample: the claim asserts the health probe uses a longer
timeout than the 15 s default, but `ping` passes 12000 ms, shorter than
the default. -/
theorem timeout_claim_false :
    ¬ (defaultRequestTimeoutMs = 15000 ∧
       sendMessageTimeoutMs > defaultRequestTimeoutMs ∧
       pingTimeoutMs > defaultRequestTimeoutMs) := by
  decide

/-- C1 (amended): every request resolves to a positive bounded timeout,
the default is 15 s, the message send uses a longer 30 s timeout, and the
health probe uses a shorter 12 s timeout. -/
theorem timeouts_bounded :
    defaultRequestTimeoutMs = 15000 ∧
    sendMessageTimeoutMs = 30000 ∧
    pingTimeoutMs = 12000 ∧
    sendMessageTimeoutMs > defaultRequestTimeoutMs ∧
    pingTimeoutMs < defaultRequestTimeoutMs ∧
    resolveTimeoutMs none = defaultRequestTimeoutMs ∧
    resolveTimeoutMs (some pingTimeoutMs) = pingTimeoutMs ∧
    resolveTimeoutMs (some sendMessageTimeoutMs) = sendMessageTimeoutMs ∧
    0 < pingTimeoutMs ∧ 0 < defaultRequestTimeoutMs ∧ 0 < sendMessageTimeoutMs := by
  decide

/-- C9: for every identifier, the login payload routes the trimmed
identifier to `email` (lowercased) exactly when it contains `@`, to
`phone` otherwise, and always carries the trimmed identifier and the
unchanged password. -/
theorem login_dispatch (identifier password : String) :
    (ApiService.login identifier password).identifier = trimStr identifier ∧
    (ApiService.login identifier password).password = password ∧
    (ApiService.login identifier password).email =
      (if (trimStr identifier).contains '@' then some (toLowerStr (trimStr identifier))
       else none) ∧
    (ApiService.login identifier password).phone =
      (if (trimStr identifier).contains '@' then none else some (trimStr identifier)) := by
  unfold ApiService.login
  by_cases h : (trimStr identifier).contains '@' = true <;> simp [h]

/-- C2: on a failed approve or reject, a detail string containing
`already` or `not found` (case-insensitively) yields a re-fetch and
non-error feedback; any other detail string yields error feedback with no
re-fetch; and the two catch blocks behave identically on every detail
string. -/
theorem approval_failure_handling (d : String) :
    (isAlreadyProcessed d = true →
      confirmApproveOnError (some d) =
        { title := "Synced"
          message := "Request was already processed. The list is now up to date."
          isErrorFeedback := false, refetched := true }) ∧
    (isAlreadyProcessed d = false →
      confirmApproveOnError (some d) =
        { title := "Action Failed", message := d
          isErrorFeedback := true, refetched := false }) ∧
    confirmApproveOnError (some d) = confirmRejectOnError (some d) := by
  refine ⟨fun h => ?_, fun h => ?_, ?_⟩
  · simp [confirmApproveOnError, h]
  · simp [confirmApproveOnError, h]
  · by_cases h : isAlreadyProcessed d = true <;>
      simp [confirmApproveOnError, confirmRejectOnError, h]

/-- C2 witness: instantiation at the detail string
`User already processed`. -/
theorem approval_failure_handling_witness :
    confirmApproveOnError (some "Request already approved") =
      { title := "Synced"
        message := "Request was already processed. The list is now up to date."
        isErrorFeedback := false, refetched := true } :=
  (approval_failure_handling "Request already approved").1 (by decide)

/-- C4: whenever registration submits a payload, the center field is
`some` center from `GYM_CENTERS` for trainer and member roles and is
omitted (`none`) for the admin role. -/
theorem register_center_by_role (f : RegisterForm) (p : RegisterPayload)
    (h : handleRegister f = some p) :
    (p.role = Role.trainer ∨ p.role = Role.member →
      p.center = some f.center ∧ f.center ∈ GYM_CENTERS) ∧
    (p.role = Role.admin → p.center = none) := by
  unfold handleRegister at h
  split at h
  · exact Option.noConfusion h
  split at h
  · exact Option.noConfusion h
  split at h
  · exact Option.noConfusion h
  split at h
  · exact Option.noConfusion h
  rw [Option.some.injEq] at h
  subst h
  refine ⟨fun hr => ⟨?_, center_mem_gym_centers _⟩, fun hr => ?_⟩
  · rcases hr with hr | hr <;> simp_all
  · simp_all

/-- C4 witness: a member registration for Chakdah submits
`center = some Chakdah`. -/
theorem register_center_by_role_witness :
    (some Center.Chakdah = some Center.Chakdah ∧ Center.Chakdah ∈ GYM_CENTERS) ∧
    (Role.member = Role.admin → (some Center.Chakdah : Option Center) = none) := by
  have h := register_center_by_role
    { full_name := "Asha", email := "asha@example.com", phone := "9876543210"
      password := "secret1", confirmPassword := "secret1"
      role := Role.member, center := Center.Chakdah }
    { full_name := "Asha", email := "asha@example.com", phone := "+919876543210"
      password := "secret1", role := Role.member, center := some Center.Chakdah }
    (by decide)
  exact ⟨h.1 (Or.inr rfl), fun hr => absurd hr (by decide)⟩

/-- C5 counterexample: an eleven-digit phone is not rejected; registration
truncates it to its first ten digits and submits a request, refuting the
claim that every phone whose digit-stripped form is not exactly ten digits
long is rejected. -/
theorem phone_truncation_counterexample :
    ("12345678901".data.filter Char.isDigit).length ≠ 10 ∧
    handleRegister
      { full_name := "Asha", email := "asha@example.com", phone := "12345678901"
        password := "secret1", confirmPassword := "secret1"
        role := Role.member, center := Center.Ranaghat }
      = some { full_name := "Asha", email := "asha@example.com"
               phone := "+911234567890", password := "secret1"
               role := Role.member, center := some Center.Ranaghat } := by
  constructor
  · decide
  · decide

/-- C5 (amended): registration rejects any phone with fewer than ten
digits after stripping non-digits and otherwise submits `+91` followed by
the first ten stripped digits; profile editing likewise rejects when the
normalized input (digits, minus one leading `91`, truncated to ten) is not
exactly ten digits long and otherwise submits `+91` followed by it; in
both flows no request is sent when validation fails. -/
theorem phone_validation (f : RegisterForm) (full_name typedPhone : String) :
    ((f.phone.data.filter Char.isDigit).length < 10 → handleRegister f = none) ∧
    (∀ p, handleRegister f = some p →
      p.phone = "+91" ++ formatIndianPhoneDigits f.phone ∧
      (formatIndianPhoneDigits f.phone).length = 10) ∧
    ((toIndianPhoneDigits typedPhone).length ≠ 10 →
      editProfileSubmit full_name typedPhone = none) ∧
    (∀ q, editProfileSubmit full_name typedPhone = some q →
      q.phone = "+91" ++ toIndianPhoneDigits typedPhone ∧
      (toIndianPhoneDigits typedPhone).length = 10) := by
  refine ⟨fun hlt => ?_, fun p hp => ?_, fun hne => ?_, fun q hq => ?_⟩
  · have hlen : (formatIndianPhoneDigits f.phone).length ≠ 10 := by
      have : (formatIndianPhoneDigits f.phone).length =
          min 10 (f.phone.data.filter Char.isDigit).length := by
        simp [formatIndianPhoneDigits, String.length]
      omega
    unfold handleRegister
    split
    · rfl
    · rfl
  · unfold handleRegister at hp
    split at hp
    · exact Option.noConfusion hp
    split at hp
    · exact Option.noConfusion hp
    split at hp
    · exact Option.noConfusion hp
    split at hp
    · exact Option.noConfusion hp
    rw [Option.some.injEq] at hp
    subst hp
    simp_all
  · unfold editProfileSubmit handleSave
    split
    · rfl
    · rfl
  · unfold editProfileSubmit handleSave at hq
    split at hq
    · exact Option.noConfusion hq
    split at hq
    · exact Option.noConfusion hq
    rw [Option.some.injEq] at hq
    subst hq
    simp_all

/-- C5 amended witness: a nine-digit phone is rejected at registration,
and a valid edit-profile submission carries `+91` plus ten digits. -/
theorem phone_validation_witness :
    handleRegister
      { full_name := "Asha", email := "asha@example.com", phone := "987654321"
        password := "secret1", confirmPassword := "secret1"
        role := Role.member, center := Center.Chakdah } = none ∧
    ((ProfileUpdatePayload.mk "Asha" "+919876543210").phone =
        "+91" ++ toIndianPhoneDigits "+91 98765 43210" ∧
      (toIndianPhoneDigits "+91 98765 43210").length = 10) := by
  constructor
  · exact (phone_validation
      { full_name := "Asha", email := "asha@example.com", phone := "987654321"
        password := "secret1", confirmPassword := "secret1"
        role := Role.member, center := Center.Chakdah } "x" "y").1 (by decide)
  · exact (phone_validation
      { full_name := "Asha", email := "asha@example.com", phone := "987654321"
        password := "secret1", confirmPassword := "secret1"
        role := Role.member, center := Center.Chakdah } "Asha" "+91 98765 43210").2.2.2
      (ProfileUpdatePayload.mk "Asha" "+919876543210") (by decide)


/-- C8 counterexample: the claim says `toSystemDate` returns a valid date
for every input including every `Date`, but an invalid `Date` instance is
returned as-is, still invalid. -/
theorem toSystemDate_invalid_date_counterexample :
    (toSystemDate (fun _ => none) 0 (TimeValue.date { time := none })).time = none :=
  rfl

/-- C8 (amended): `toSystemDate` is total and returns a valid date for
every nullish, blank, unparseable or parseable string input and for every
valid `Date` input (a `Date` is returned as-is, so an invalid `Date`
stays invalid); a trimmed non-empty string gets `Z` appended exactly when
it lacks a timezone suffix before being parsed, with the current time as
fallback. -/
theorem toSystemDate_spec (parse : String → Option Int) (now : Int)
    (v : TimeValue) (s : String)
    (hv : ∀ d, v = TimeValue.date d → d.time.isSome = true)
    (hs : s ≠ "") (hts : trimStr s ≠ "") :
    (toSystemDate parse now v).time.isSome = true ∧
    toSystemDate parse now (TimeValue.str s) =
      { time := some ((parse (if hasTzSuffix (trimStr s) then trimStr s
                              else trimStr s ++ "Z")).getD now) } ∧
    (∀ d, toSystemDate parse now (TimeValue.date d) = d) ∧
    toSystemDate parse now TimeValue.nullish = { time := some now } := by
  refine ⟨?_, ?_, fun d => rfl, rfl⟩
  · cases v with
    | date d => exact hv d rfl
    | nullish => rfl
    | str t =>
      simp only [toSystemDate]
      split
      · rfl
      split
      · rfl
      split <;> rfl
  · simp only [toSystemDate]
    rw [if_neg hs, if_neg hts]
    cases h : parse (if hasTzSuffix (trimStr s) then trimStr s
        else trimStr s ++ "Z") <;> simp [h]

/-- C8 amended witness: instantiation at a timezone-less timestamp string,
showing the `Z` suffix is appended before parsing. -/
theorem toSystemDate_spec_witness :
    (toSystemDate (fun t => if t = "2024-01-01T10:00:00Z" then some 1704103200000
        else none) 0 (TimeValue.str "2024-01-01T10:00:00")).time.isSome = true ∧
    toSystemDate (fun t => if t = "2024-01-01T10:00:00Z" then some 1704103200000
        else none) 0 (TimeValue.str "2024-01-01T10:00:00") =
      { time := some ((if ("2024-01-01T10:00:00Z" : String) = "2024-01-01T10:00:00Z"
          then some (1704103200000 : Int) else none).getD 0) } := by
  have h := toSystemDate_spec
    (fun t => if t = "2024-01-01T10:00:00Z" then some 1704103200000 else none) 0
    (TimeValue.str "2024-01-01T10:00:00") "2024-01-01T10:00:00"
    (fun d hd => TimeValue.noConfusion hd) (by decide) (by decide)
  refine ⟨h.1, ?_⟩
  rw [h.2.1]
  rfl

/-- C3: the attendance screen state is checked-in exactly when today has a
record for the user with no check-out time; while checked-in the button
issues only a check-out request and while not checked-in only a
self-method check-in request; a successful check-in (resp. check-out)
flips the state so the next press issues the opposite operation. -/
theorem attendance_alternation (today : List AttendanceRecord) (uid : String)
    (st : Bool) :
    (isCheckedInFrom today uid = true ↔
      ∃ r ∈ today, r.user_id = uid ∧ r.check_out_time = none) ∧
    attendanceButtonRequest true uid = ApiRequest.checkOutReq uid ∧
    attendanceButtonRequest false uid = ApiRequest.checkInReq uid "self" ∧
    attendanceButtonRequest (afterCheckInSuccess st) uid = ApiRequest.checkOutReq uid ∧
    attendanceButtonRequest (afterCheckOutSuccess st) uid =
      ApiRequest.checkInReq uid "self" := by
  refine ⟨?_, rfl, rfl, rfl, rfl⟩
  simp [isCheckedInFrom, List.find?_isSome, Option.isNone_iff_eq_none]

/-- Membership survives removing the entry at an index. -/
theorem mem_of_mem_eraseIdx {α : Type} {a : α} :
    ∀ (l : List α) (i : Nat), a ∈ l.eraseIdx i → a ∈ l
  | [], _, h => h
  | _ :: _, 0, h => List.mem_cons_of_mem _ h
  | b :: t, i + 1, h => by
    rcases List.mem_cons.mp h with h | h
    · exact h ▸ List.mem_cons_self b t
    · exact List.mem_cons_of_mem _ (mem_of_mem_eraseIdx t i h)

/-- The first-match update of `addToCartGo` preserves the cart invariant
when the matched stock bound agrees with the entries it can update. -/
theorem addToCartGo_inv (cart : List CartItem) (sel : MerchandiseItem)
    (size : String) (stock : Nat)
    (hinv : CartInv cart)
    (hstock : 1 ≤ stock)
    (hsel : stock = stockOf sel size)
    (hcons : ∀ it ∈ cart, it.merchandise.id = sel.id → it.size = size →
      it.merchandise = sel) :
    CartInv (addToCartGo cart sel size stock) := by
  induction cart with
  | nil =>
    intro it hit
    rcases List.mem_cons.mp hit with h | h
    · subst h
      exact ⟨le_refl 1, hsel ▸ hstock⟩
    · exact absurd h (List.not_mem_nil it)
  | cons hd rest ih =>
    have hhd := hinv hd (List.mem_cons_self hd rest)
    have hrest : CartInv rest := fun it hit => hinv it (List.mem_cons_of_mem hd hit)
    have hconsrest : ∀ it ∈ rest, it.merchandise.id = sel.id → it.size = size →
        it.merchandise = sel :=
      fun it hit => hcons it (List.mem_cons_of_mem hd hit)
    unfold addToCartGo
    by_cases hm : (hd.merchandise.id == sel.id && hd.size == size) = true
    · rw [if_pos hm]
      rw [Bool.and_eq_true] at hm
      have hid : hd.merchandise.id = sel.id := by simpa using hm.1
      have hsz : hd.size = size := by simpa using hm.2
      have heq : hd.merchandise = sel :=
        hcons hd (List.mem_cons_self hd rest) hid hsz
      by_cases hq : hd.quantity < stock
      · rw [if_pos hq]
        intro it hit
        rcases List.mem_cons.mp hit with h | h
        · subst h
          constructor
          · have := hhd.1
            show 1 ≤ hd.quantity + 1
            omega
          · show hd.quantity + 1 ≤ stockOf hd.merchandise hd.size
            rw [heq, hsz, ← hsel]
            omega
        · exact hrest it h
      · rw [if_neg hq]
        exact hinv
    · rw [if_neg hm]
      intro it hit
      rcases List.mem_cons.mp hit with h | h
      · exact h ▸ hhd
      · exact ih hrest hconsrest it h

/-- With no matching entry, the `addToCartGo` update appends a fresh
quantity-1 entry at the end. -/
theorem addToCartGo_append (sel : MerchandiseItem) (size : String) (stock : Nat) :
    ∀ cart : List CartItem,
      (∀ it ∈ cart, ¬(it.merchandise.id = sel.id ∧ it.size = size)) →
      addToCartGo cart sel size stock =
        cart ++ [{ merchandise := sel, size := size, quantity := 1 }]
  | [], _ => rfl
  | hd :: rest, hnone => by
    have hm : (hd.merchandise.id == sel.id && hd.size == size) = false := by
      have := hnone hd (List.mem_cons_self hd rest)
      by_cases h1 : hd.merchandise.id = sel.id
      · by_cases h2 : hd.size = size
        · exact absurd ⟨h1, h2⟩ this
        · simp [h2]
      · simp [h1]
    unfold addToCartGo
    rw [if_neg (by simp [hm])]
    rw [addToCartGo_append sel size stock rest
      (fun it hit => hnone it (List.mem_cons_of_mem hd hit))]
    rfl

/-- C10: cart operations preserve the 1-to-stock quantity invariant:
`addToCart` refuses out-of-stock sizes, starts new entries at quantity 1
and refuses to increment past the stock, and `updateQuantity` only
applies changes inside 1..stock, removing the entry when the quantity
would drop to 0 or below. -/
theorem cart_invariant (cart : List CartItem) (sel : MerchandiseItem)
    (size : String) (index : Nat) (delta : Int)
    (hinv : CartInv cart)
    (hcons : ∀ it ∈ cart, it.merchandise.id = sel.id → it.size = size →
      it.merchandise = sel) :
    CartInv (addToCart cart sel size) ∧
    CartInv (updateQuantity cart index delta) ∧
    (stockOf sel size = 0 → addToCart cart sel size = cart) ∧
    (∀ it, cart[index]? = some it → (it.quantity : Int) + delta ≤ 0 →
      updateQuantity cart index delta = cart.eraseIdx index) ∧
    ((∀ it ∈ cart, ¬(it.merchandise.id = sel.id ∧ it.size = size)) →
      size ≠ "" → stockOf sel size ≠ 0 →
      addToCart cart sel size =
        cart ++ [{ merchandise := sel, size := size, quantity := 1 }]) := by
  refine ⟨?_, ?_, ?_, ?_, ?_⟩
  · unfold addToCart
    split
    · exact hinv
    split
    · exact hinv
    next h0 =>
      exact addToCartGo_inv cart sel size (stockOf sel size) hinv
        (Nat.one_le_iff_ne_zero.mpr h0) rfl hcons
  · unfold updateQuantity
    cases hit : cart[index]? with
    | none => exact hinv
    | some it =>
      show CartInv (if 0 < (it.quantity : Int) + delta ∧
          (it.quantity : Int) + delta ≤ (stockOf it.merchandise it.size : Int) then
          cart.set index { it with quantity := ((it.quantity : Int) + delta).toNat }
        else if (it.quantity : Int) + delta ≤ 0 then cart.eraseIdx index else cart)
      by_cases hq : 0 < (it.quantity : Int) + delta ∧
          (it.quantity : Int) + delta ≤ (stockOf it.merchandise it.size : Int)
      · rw [if_pos hq]
        intro a ha
        rcases List.mem_or_eq_of_mem_set ha with h | h
        · exact hinv a h
        · subst h
          constructor
          · show 1 ≤ ((it.quantity : Int) + delta).toNat
            omega
          · show ((it.quantity : Int) + delta).toNat ≤
              stockOf it.merchandise it.size
            omega
      · rw [if_neg hq]
        by_cases hle : (it.quantity : Int) + delta ≤ 0
        · rw [if_pos hle]
          intro a ha
          exact hinv a (mem_of_mem_eraseIdx cart index ha)
        · rw [if_neg hle]
          exact hinv
  · intro h0
    simp [addToCart, h0]
  · intro it hit hle
    unfold updateQuantity
    rw [hit]
    show (if 0 < (it.quantity : Int) + delta ∧
        (it.quantity : Int) + delta ≤ (stockOf it.merchandise it.size : Int) then
        cart.set index { it with quantity := ((it.quantity : Int) + delta).toNat }
      else if (it.quantity : Int) + delta ≤ 0 then cart.eraseIdx index else cart)
      = cart.eraseIdx index
    have hq : ¬(0 < (it.quantity : Int) + delta ∧
        (it.quantity : Int) + delta ≤ (stockOf it.merchandise it.size : Int)) := by
      omega
    rw [if_neg hq, if_pos hle]
  · intro hnone hsz h0
    unfold addToCart
    rw [if_neg hsz, if_neg h0]
    exact addToCartGo_append sel size (stockOf sel size) cart hnone

/-- C10 witness: a one-entry cart at quantity 1 with stock 3 keeps the
invariant after adding the same item and size again. -/
theorem cart_invariant_witness :
    CartInv (addToCart
      [{ merchandise := { id := "m1", stock := [("M", 3)] }, size := "M", quantity := 1 }]
      { id := "m1", stock := [("M", 3)] } "M") :=
  (cart_invariant
    [{ merchandise := { id := "m1", stock := [("M", 3)] }, size := "M", quantity := 1 }]
    { id := "m1", stock := [("M", 3)] } "M" 0 (-1)
    (by unfold CartInv; decide) (by decide)).1

/-- C6: under the invariant tying the stored socket to the stored userId,
connecting as `uid` yields a socket whose successful connection emits
exactly one `register` event with `user_id = uid`; the connect call is a
no-op when already connected under the same userId; and `disconnect`
clears both fields, after which `onMessage` and `onAnnouncement` attach
no listeners. -/
theorem socket_register_lifecycle (st : SocketServiceState) (uid : String)
    (hinv : SocketService.UidInv st) :
    (SocketService.fireConnect (SocketService.connect st uid)).2 =
      [{ event := "register", payloadUserId := uid }] ∧
    (SocketService.connect st uid).userId = some uid ∧
    (∀ sk, st.socket = some sk → sk.connected = true → st.userId = some uid →
      SocketService.connect st uid = st) ∧
    SocketService.disconnect (SocketService.connect st uid) =
      { socket := none, userId := none } ∧
    SocketService.onMessage { socket := none, userId := none } =
      { socket := none, userId := none } ∧
    SocketService.onAnnouncement { socket := none, userId := none } =
      { socket := none, userId := none } := by
  by_cases hc : ((match st.socket with
      | some sk => sk.connected
      | none => false) && st.userId == some uid) = true
  · have hst : SocketService.connect st uid = st := by
      unfold SocketService.connect
      rw [if_pos hc]
    rw [Bool.and_eq_true] at hc
    obtain ⟨hb, hu⟩ := hc
    have hu' : st.userId = some uid := by simpa using hu
    cases hsk : st.socket with
    | none =>
      rw [hsk] at hb
      exact absurd hb (by simp)
    | some sk =>
      rw [hsk] at hb
      have hreg : uid = sk.registerUid := by
        have h2 := hinv sk hsk
        rw [hu'] at h2
        exact Option.some.inj h2
      rw [hst]
      refine ⟨?_, hu', fun _ _ _ _ => rfl, ?_, rfl, rfl⟩
      · unfold SocketService.fireConnect
        rw [hsk]
        show [SocketEmission.mk "register" sk.registerUid] =
          [SocketEmission.mk "register" uid]
        rw [← hreg]
      · unfold SocketService.disconnect
        rw [hsk]
  · have hst : SocketService.connect st uid =
        { socket := some { connected := false, registerUid := uid, listeners := [] }
          userId := some uid } := by
      unfold SocketService.connect
      rw [if_neg hc]
    rw [hst]
    refine ⟨rfl, rfl, ?_, rfl, rfl, rfl⟩
    intro sk hsk hcon huid
    exfalso
    apply hc
    rw [hsk, huid]
    simp [hcon]

/-- C6 witness: connecting from the initial state as user `u1` and firing
the connection emits `register` with `user_id = u1`. -/
theorem socket_register_lifecycle_witness :
    (SocketService.fireConnect
      (SocketService.connect { socket := none, userId := none } "u1")).2 =
      [{ event := "register", payloadUserId := "u1" }] :=
  (socket_register_lifecycle { socket := none, userId := none } "u1"
    (fun _sk h => Option.noConfusion h)).1

/-- C7 counterexample: the attendance screen fetches its authoritative
state over REST yet has neither a focus re-fetch nor a polling interval,
so not every data-bearing screen re-fetches on focus and polls. -/
theorem screen_polling_counterexample :
    attendanceScreenSync ∈ appScreens ∧
    attendanceScreenSync.fetchesRestData = true ∧
    ¬(attendanceScreenSync.refetchOnFocus = true ∧
      (attendanceScreenSync.pollIntervalMs).isSome = true) := by
  decide

/-- C7 (amended): the chat, conversations, approvals and home screens
each re-fetch on focus and poll on a fixed interval of 6, 6, 8 and 10
seconds respectively, each clearing its interval on unmount; the
attendance and merchandise screens re-fetch only on mount and manual
refresh. -/
theorem screen_polling (sync : ScreenSync)
    (h : sync ∈ [chatScreenSync, messagesScreenSync, approvalsScreenSync,
      homeScreenSync]) :
    (sync.fetchesRestData = true ∧ sync.refetchOnFocus = true ∧
      (sync.pollIntervalMs).isSome = true ∧ sync.clearsIntervalOnUnmount = true) ∧
    chatScreenSync.pollIntervalMs = some 6000 ∧
    messagesScreenSync.pollIntervalMs = some 6000 ∧
    approvalsScreenSync.pollIntervalMs = some 8000 ∧
    homeScreenSync.pollIntervalMs = some 10000 ∧
    attendanceScreenSync.refetchOnFocus = false ∧
    attendanceScreenSync.pollIntervalMs = none ∧
    merchandiseScreenSync.refetchOnFocus = false ∧
    merchandiseScreenSync.pollIntervalMs = none := by
  rcases List.mem_cons.mp h with h1 | h
  · subst h1; decide
  rcases List.mem_cons.mp h with h1 | h
  · subst h1; decide
  rcases List.mem_cons.mp h with h1 | h
  · subst h1; decide
  rcases List.mem_cons.mp h with h1 | h
  · subst h1; decide
  · exact absurd h (List.not_mem_nil sync)

/-- C7 amended witness: instantiation at the chat screen. -/
theorem screen_polling_witness :
    chatScreenSync.fetchesRestData = true ∧ chatScreenSync.refetchOnFocus = true ∧
    (chatScreenSync.pollIntervalMs).isSome = true ∧
    chatScreenSync.clearsIntervalOnUnmount = true :=
  (screen_polling chatScreenSync (by decide)).1
